import Mathlib

/-!
A shallow embedding of `libutil` (`src/utils.h`) and proofs about it.

The library has three parts:

* `_xmalloc` / `_xrealloc` — abort-on-failure wrappers around `malloc` /
  `realloc`.  The underlying allocator call is modelled by an oracle
  argument holding its result; addresses are `Nat`, with `0` encoding the
  null pointer.
* the `_xfree` macro — `free ((ptr)); (ptr) = NULL;` — modelled as a pure
  transformer of the caller-visible state (the pointer variable and the
  list of addresses released back to the allocator).
* `__output` — the leveled logger.  Each `printf` / `fprintf` call is
  recorded as one chunk appended to the corresponding stream's chunk
  list; `vprintf (fmt, args)` is modelled by its already-formatted result
  string `msg`.  Standard input is a list of `getc` values (`Int`; a read
  past the end yields `EOF = -1`, exactly as `getc` does).  The `Warn_Ack`
  confirmation loop is a fuel-indexed iteration whose `Outcome.running`
  result means the loop had not finished within the given number of
  iterations.
-/

namespace libutil

/-- `enum _OutputType` from `utils.h`. -/
inductive OutputType where
  | Info
  | Warn_NoAck
  | Warn_Ack
  | Error
  deriving DecidableEq

/-- The null pointer, encoded as address `0` (so that C's `if (ptr)`
truthiness test is `ptr ≠ NULL`). -/
def NULL : Nat := 0

/-- `EOF`, the value `getc` yields on an exhausted stream. -/
def EOF : Int := -1

/-- The diagnostic `_xmalloc` prints on `stderr` before aborting
(no trailing newline in the source). -/
def mallocFailMsg : String := " ** libutils: FATAL: memory allocation failed!"

/-- The diagnostic `_xrealloc` prints on `stderr` before aborting
(no trailing newline in the source). -/
def reallocFailMsg : String := " ** libutils: FATAL: memory reallocation failed!"

/-- Result of a guarded allocation call: either the function returns the
pointer to the caller, or it writes `msg` to the standard error stream and
calls `abort ()` (never returning). -/
inductive AllocResult where
  | returns (ptr : Nat)
  | aborts (msg : String)
  deriving DecidableEq

/-- Embedding of `_xmalloc (size)`.  The underlying `malloc (size)` call is
modelled by the oracle `mallocResult` (its returned address, `0` = `NULL`):
`if (ptr) return ptr; else { fprintf (stderr, ...); abort (); }`. -/
def _xmalloc (size : Nat) (mallocResult : Nat) : AllocResult :=
  if mallocResult ≠ NULL then
    AllocResult.returns mallocResult
  else
    AllocResult.aborts mallocFailMsg

/-- Embedding of `_xrealloc (ptr, size)`.  The underlying
`realloc (ptr, size)` call is modelled by the oracle `reallocResult`:
`if ((newBuf != NULL) && (newBuf != ptr)) return newBuf;
 else { fprintf (stderr, ...); abort (); }`. -/
def _xrealloc (ptr : Nat) (size : Nat) (reallocResult : Nat) : AllocResult :=
  if reallocResult ≠ NULL ∧ reallocResult ≠ ptr then
    AllocResult.returns reallocResult
  else
    AllocResult.aborts reallocFailMsg

/-- The caller-visible state around a `_xfree (ptr)` expansion: the
pointer variable itself and the addresses handed back to the allocator so
far. -/
structure FreeState where
  ptr : Nat
  released : List Nat
  deriving DecidableEq

/-- Embedding of the `_xfree` macro: `free ((ptr)); (ptr) = NULL;`.
`free` on a null pointer is a no-op (C11 7.22.3.3), otherwise it releases
the address; the macro then always stores `NULL` into the variable. -/
def _xfree (s : FreeState) : FreeState :=
  ⟨NULL, if s.ptr = NULL then s.released else s.ptr :: s.released⟩

/-- `static const char *Head = " ** libutils:";` -/
def Head : String := " ** libutils:"

/-- The chunk printed by `printf ("%s In %s (%s:%d) INFO: ", Head, func, file, line)`. -/
def infoHead (func file : String) (line : Int) : String :=
  Head ++ " In " ++ func ++ " (" ++ file ++ ":" ++ toString line ++ ") INFO: "

/-- The chunk printed by `printf ("%s In %s (%s:%d) WARN: ", Head, func, file, line)`. -/
def warnHead (func file : String) (line : Int) : String :=
  Head ++ " In " ++ func ++ " (" ++ file ++ ":" ++ toString line ++ ") WARN: "

/-- The chunk printed by `fprintf (stderr, "%s In %s (%s:%d) FAIL: ", Head, func, file, line)`. -/
def failHead (func file : String) (line : Int) : String :=
  Head ++ " In " ++ func ++ " (" ++ file ++ ":" ++ toString line ++ ") FAIL: "

/-- The confirmation prompt printed at the top of every loop iteration. -/
def prompt : String := " -> Continue? [y/N]"

/-- The instruction printed by the `default:` branch of the answer switch. -/
def reprompt : String := "    Please answer [y]es or [N]o."

/-- Code of the character Y, as an `Int` for comparison with `getc` results. -/
def cY : Int := Int.ofNat (Char.toNat 'Y')

/-- Code of the character y. -/
def cy : Int := Int.ofNat (Char.toNat 'y')

/-- Code of the character N. -/
def cN : Int := Int.ofNat (Char.toNat 'N')

/-- Code of the character n. -/
def cn : Int := Int.ofNat (Char.toNat 'n')

/-- Code of the carriage-return character. -/
def cCR : Int := Int.ofNat (Char.toNat '\r')

/-- Code of the line-feed character. -/
def cLF : Int := Int.ofNat (Char.toNat '\n')

/-- Code of the character x (used as an unrecognized answer in examples). -/
def cx : Int := Int.ofNat (Char.toNat 'x')

/-- How a `__output` call (or the confirmation loop inside it) ends:
a normal return, `exit (code)`, `abort ()`, or — for the fuel-indexed
loop — still iterating when the fuel ran out. -/
inductive Outcome where
  | returns
  | exits (code : Nat)
  | aborts
  | running
  deriving DecidableEq

/-- What one run of the confirmation loop produces: the chunks it printed
to standard output, the part of standard input it did not consume, and how
it ended. -/
structure AckResult where
  out : List String
  stdinRest : List Int
  outcome : Outcome
  deriving DecidableEq

/-- `getc (stdin)` on the modelled input stream: the next value and the
rest, or `EOF` once the stream is exhausted. -/
def getc : List Int → Int × List Int
  | [] => (EOF, [])
  | c :: rest => (c, rest)

/-- The `while (1)` confirmation loop of the `Warn_Ack` branch, indexed by
fuel (a bound on the number of iterations).  Each iteration prints the
prompt, reads one value `yn`, and switches on it:
`'Y'`/`'y'` drains standard input to `EOF` and returns; `'N'`/`'n'`/`'\r'`
calls `exit (255)`; anything else prints the re-prompt instruction and
repeats.  (In the source `yn` is a `char`; byte values and `EOF` compare
against the five case labels identically whether or not they are first
truncated to `char`, so the read value is kept as an `Int` here.) -/
def ackLoop : Nat → List Int → AckResult
  | 0, stdin => ⟨[], stdin, Outcome.running⟩
  | fuel+1, stdin =>
    let g := getc stdin
    let yn := g.1
    let rest := g.2
    if yn = cY ∨ yn = cy then
      ⟨[prompt], [], Outcome.returns⟩
    else if yn = cN ∨ yn = cn ∨ yn = cCR then
      ⟨[prompt], rest, Outcome.exits 255⟩
    else
      let r := ackLoop fuel rest
      ⟨prompt :: reprompt :: r.out, r.stdinRest, r.outcome⟩

/-- What a `__output` call produces: the chunks written to standard output
and to standard error (in program order, one list entry per `printf` /
`fprintf` / `vprintf` call), the unconsumed standard input, and how the
call ended. -/
structure OutputResult where
  stdout : List String
  stderr : List String
  stdinRest : List Int
  outcome : Outcome
  deriving DecidableEq

/-- Embedding of `__output (file, func, line, outputType, fmt, ...)`.
`msg` is the string the `vprintf (fmt, args)` / `vfprintf (stderr, fmt,
args)` call formats; `stdin` is the modelled standard input and `fuel`
bounds the iterations of the `Warn_Ack` confirmation loop.  Note the
`Error` branch of the source writes its head and message to `stderr` but
its closing newline with `printf ("\n")` — to `stdout` — before
`abort ()`. -/
def __output (file func : String) (line : Int) (outputType : OutputType)
    (msg : String) (stdin : List Int) (fuel : Nat) : OutputResult :=
  match outputType with
  | OutputType.Info =>
    ⟨[infoHead func file line, msg, "\n"], [], stdin, Outcome.returns⟩
  | OutputType.Warn_NoAck =>
    ⟨[warnHead func file line, msg, "\n"], [], stdin, Outcome.returns⟩
  | OutputType.Warn_Ack =>
    let r := ackLoop fuel stdin
    ⟨warnHead func file line :: msg :: "\n" :: r.out, [], r.stdinRest, r.outcome⟩
  | OutputType.Error =>
    ⟨["\n"], [failHead func file line, msg], stdin, Outcome.aborts⟩

/-- Example file name used for concrete evaluations. -/
def fileA : String := "a.c"

/-- Example routine name used for concrete evaluations. -/
def mainFunc : String := "main"

/-- Example formatted message used for concrete evaluations. -/
def msgBoom : String := "boom"

/-! ## Helper lemmas on the confirmation loop -/

/-- One default-branch iteration: an unrecognized value prints the prompt
and the re-prompt instruction, consumes exactly that one value, and
repeats the loop on the remaining input. -/
theorem ackLoop_default_step (c : Int) (rest : List Int) (fuel : Nat)
    (hY : ¬(c = cY ∨ c = cy)) (hN : ¬(c = cN ∨ c = cn ∨ c = cCR)) :
    ackLoop (fuel+1) (c :: rest) =
      ⟨prompt :: reprompt :: (ackLoop fuel rest).out,
        (ackLoop fuel rest).stdinRest, (ackLoop fuel rest).outcome⟩ := by
  simp [ackLoop, getc, hY, hN]

/-- One iteration on an exhausted standard input: `getc` yields `EOF`,
which matches no case label, so the default branch prints the prompt and
the re-prompt instruction and the loop repeats on the still-empty
input. -/
theorem ackLoop_nil_step (fuel : Nat) :
    ackLoop (fuel+1) [] =
      ⟨prompt :: reprompt :: (ackLoop fuel []).out,
        (ackLoop fuel []).stdinRest, (ackLoop fuel []).outcome⟩ := by
  simp only [ackLoop, getc]
  rw [if_neg (by decide), if_neg (by decide)]

/-- On an exhausted standard input the loop only ever takes the default
branch: after any number of iterations it is still running, having
consumed nothing. -/
theorem ackLoop_nil_running (fuel : Nat) :
    (ackLoop fuel []).outcome = Outcome.running ∧
    (ackLoop fuel []).stdinRest = [] := by
  induction fuel with
  | zero => exact ⟨rfl, rfl⟩
  | succ n ih =>
    rw [ackLoop_nil_step n]
    exact ih

/-! ## Claim theorems: allocation guard -/

/-- C6: for every size, `_xmalloc` either returns the (non-null) handle the
underlying allocator produced, or — when the allocator returns null —
prints " ** libutils: FATAL: memory allocation failed!" (no trailing
newline) to the error stream and aborts without returning. -/
theorem xmalloc_guarantee (size r : Nat) :
    (r ≠ NULL → _xmalloc size r = AllocResult.returns r) ∧
    (r = NULL → _xmalloc size r = AllocResult.aborts mallocFailMsg) := by
  constructor
  · intro h
    simp [_xmalloc, h]
  · intro h
    simp [_xmalloc, h, NULL]

/-- Witness for C6 at size 16 with allocator results 1000 and 0 (null). -/
theorem xmalloc_guarantee_witness :
    _xmalloc 16 1000 = AllocResult.returns 1000 ∧
    _xmalloc 16 0 = AllocResult.aborts mallocFailMsg :=
  ⟨(xmalloc_guarantee 16 1000).1 (by decide), (xmalloc_guarantee 16 0).2 rfl⟩

/-- C1: `_xrealloc` returns normally exactly when the underlying `realloc`
result is both non-null and different from the prior handle; in every
other case (null, or the same address back) it prints the reallocation
diagnostic to the error stream and aborts. -/
theorem xrealloc_success_iff (ptr size r : Nat) :
    ((∃ q, _xrealloc ptr size r = AllocResult.returns q) ↔ (r ≠ NULL ∧ r ≠ ptr)) ∧
    (r ≠ NULL ∧ r ≠ ptr → _xrealloc ptr size r = AllocResult.returns r) ∧
    ((r = NULL ∨ r = ptr) → _xrealloc ptr size r = AllocResult.aborts reallocFailMsg) := by
  by_cases h : r ≠ NULL ∧ r ≠ ptr
  · refine ⟨⟨fun _ => h, fun _ => ⟨r, by simp [_xrealloc, h]⟩⟩, fun _ => by simp [_xrealloc, h], ?_⟩
    intro hc
    rcases hc with hc | hc
    · exact absurd hc h.1
    · exact absurd hc h.2
  · have habort : _xrealloc ptr size r = AllocResult.aborts reallocFailMsg := by
      simp [_xrealloc, h]
    refine ⟨⟨?_, fun hc => absurd hc h⟩, fun hc => absurd hc h, fun _ => habort⟩
    intro he
    rcases he with ⟨q, hq⟩
    rw [habort] at hq
    exact absurd hq (by simp)

/-- Witness for C1: realloc returning the same address 5 for handle 5
aborts with the reallocation diagnostic; returning a fresh address 7
succeeds. -/
theorem xrealloc_success_iff_witness :
    _xrealloc 5 8 5 = AllocResult.aborts reallocFailMsg ∧
    _xrealloc 5 8 7 = AllocResult.returns 7 :=
  ⟨(xrealloc_success_iff 5 8 5).2.2 (Or.inr rfl),
   (xrealloc_success_iff 5 8 7).2.1 (by decide)⟩

/-- C8: after `_xfree` the pointer variable reads as null; a non-null
pointer is released back to the allocator, and on an already-null pointer
the whole macro is a no-op. -/
theorem xfree_clears_and_noop (s : FreeState) :
    (_xfree s).ptr = NULL ∧
    (s.ptr ≠ NULL → _xfree s = ⟨NULL, s.ptr :: s.released⟩) ∧
    (s.ptr = NULL → _xfree s = s) := by
  refine ⟨rfl, ?_, ?_⟩
  · intro h
    simp [_xfree, h]
  · intro h
    cases s with
    | mk p rel =>
      simp only at h
      subst h
      simp [_xfree]

/-- Witness for C8: releasing address 7 clears the variable and hands 7
back; releasing a null pointer changes nothing. -/
theorem xfree_clears_and_noop_witness :
    _xfree ⟨7, []⟩ = ⟨NULL, [7]⟩ ∧ _xfree ⟨NULL, [5]⟩ = ⟨NULL, [5]⟩ :=
  ⟨(xfree_clears_and_noop ⟨7, []⟩).2.1 (by decide),
   (xfree_clears_and_noop ⟨NULL, [5]⟩).2.2 rfl⟩

/-! ## Claim theorems: leveled logger -/

/-- C7: Info and WarnNoAck write to standard output exactly the head
chunk, the formatted message and a newline, leave standard error and
standard input untouched, and return normally; the two differ only in the
INFO / WARN level inside the head chunk. -/
theorem info_warn_noack_format (file func : String) (line : Int) (msg : String)
    (stdin : List Int) (fuel : Nat) :
    __output file func line OutputType.Info msg stdin fuel =
      ⟨[infoHead func file line, msg, "\n"], [], stdin, Outcome.returns⟩ ∧
    __output file func line OutputType.Warn_NoAck msg stdin fuel =
      ⟨[warnHead func file line, msg, "\n"], [], stdin, Outcome.returns⟩ ∧
    infoHead func file line =
      " ** libutils: In " ++ func ++ " (" ++ file ++ ":" ++ toString line ++ ") INFO: " ∧
    warnHead func file line =
      " ** libutils: In " ++ func ++ " (" ++ file ++ ":" ++ toString line ++ ") WARN: " :=
  ⟨rfl, rfl, rfl, rfl⟩

/-- C2 (divergence witness): the Error branch writes the head chunk and
the formatted message to standard error and then aborts, but its closing
newline is emitted by `printf ("\n")`, i.e. on standard output — the
standard-error line is left without the trailing newline the claim
requires.  Evaluated at file "a.c", routine "main", line 10, message
"boom". -/
theorem error_newline_on_stdout :
    __output fileA mainFunc 10 OutputType.Error msgBoom [] 0 =
      ⟨["\n"], [failHead mainFunc fileA 10, msgBoom], [], Outcome.aborts⟩ ∧
    String.join [failHead mainFunc fileA 10, msgBoom] =
      " ** libutils: In main (a.c:10) FAIL: boom" ∧
    (∀ (file func : String) (line : Int) (msg : String) (stdin : List Int) (fuel : Nat),
      __output file func line OutputType.Error msg stdin fuel =
        ⟨["\n"], [failHead func file line, msg], stdin, Outcome.aborts⟩) :=
  ⟨rfl, rfl, fun _ _ _ _ _ _ => rfl⟩

/-- C3: in the Warn_Ack confirmation loop, reading N, n or carriage-return
makes the call `exit (255)` — the outcome is exits 255, never a return to
the caller. -/
theorem warnack_decline_exits_255 (file func : String) (line : Int) (msg : String)
    (c : Int) (rest : List Int) (fuel : Nat)
    (h : c = cN ∨ c = cn ∨ c = cCR) :
    (__output file func line OutputType.Warn_Ack msg (c :: rest) (fuel+1)).outcome =
      Outcome.exits 255 := by
  have hY : ¬(c = cY ∨ c = cy) := by
    rcases h with h | h | h <;> subst h <;> decide
  show (ackLoop (fuel+1) (c :: rest)).outcome = Outcome.exits 255
  simp only [ackLoop, getc]
  rw [if_neg hY, if_pos h]

/-- Witness for C3: feeding "n\n" exits with status 255. -/
theorem warnack_decline_exits_255_witness :
    (__output fileA mainFunc 10 OutputType.Warn_Ack msgBoom [cn, cLF] 1).outcome =
      Outcome.exits 255 :=
  warnack_decline_exits_255 fileA mainFunc 10 msgBoom cn [cLF] 0 (Or.inr (Or.inl rfl))

/-- C4: in the Warn_Ack confirmation loop, reading Y or y drains and
discards all remaining buffered standard input up to end-of-stream and
returns normally to the caller. -/
theorem warnack_accept_returns_drains (file func : String) (line : Int) (msg : String)
    (c : Int) (rest : List Int) (fuel : Nat)
    (h : c = cY ∨ c = cy) :
    (__output file func line OutputType.Warn_Ack msg (c :: rest) (fuel+1)).outcome =
      Outcome.returns ∧
    (__output file func line OutputType.Warn_Ack msg (c :: rest) (fuel+1)).stdinRest =
      [] := by
  constructor
  · show (ackLoop (fuel+1) (c :: rest)).outcome = Outcome.returns
    simp only [ackLoop, getc]
    rw [if_pos h]
  · show (ackLoop (fuel+1) (c :: rest)).stdinRest = []
    simp only [ackLoop, getc]
    rw [if_pos h]

/-- Witness for C4: feeding "y\n" returns normally and the buffered
newline is drained. -/
theorem warnack_accept_returns_drains_witness :
    (__output fileA mainFunc 10 OutputType.Warn_Ack msgBoom [cy, cLF] 1).outcome =
      Outcome.returns ∧
    (__output fileA mainFunc 10 OutputType.Warn_Ack msgBoom [cy, cLF] 1).stdinRest =
      [] :=
  warnack_accept_returns_drains fileA mainFunc 10 msgBoom cy [cLF] 0 (Or.inr rfl)

/-- C5: an unrecognized answer prints one re-prompt instruction and
repeats the loop having consumed exactly that one character (the rest of
the line is not drained); concretely, feeding x then "y\n" prints exactly
one re-prompt chunk before the call accepts and returns. -/
theorem warnack_unrecognized_one_reprompt :
    (∀ (c : Int) (rest : List Int) (fuel : Nat),
        ¬(c = cY ∨ c = cy) → ¬(c = cN ∨ c = cn ∨ c = cCR) →
        ackLoop (fuel+1) (c :: rest) =
          ⟨prompt :: reprompt :: (ackLoop fuel rest).out,
            (ackLoop fuel rest).stdinRest, (ackLoop fuel rest).outcome⟩) ∧
    __output fileA mainFunc 10 OutputType.Warn_Ack msgBoom [cx, cy, cLF] 2 =
      ⟨[warnHead mainFunc fileA 10, msgBoom, "\n", prompt, reprompt, prompt],
        [], [], Outcome.returns⟩ ∧
    ((__output fileA mainFunc 10 OutputType.Warn_Ack msgBoom [cx, cy, cLF] 2).stdout.filter
        (fun s => s == reprompt)).length = 1 := by
  refine ⟨ackLoop_default_step, rfl, ?_⟩
  decide

/-- Witness for C5: two loop iterations on input "xy\n" — one re-prompt,
then accept, with the trailing newline drained. -/
theorem warnack_unrecognized_one_reprompt_witness :
    ackLoop 2 [cx, cy, cLF] = ⟨[prompt, reprompt, prompt], [], Outcome.returns⟩ := by
  exact warnack_unrecognized_one_reprompt.1 cx [cy, cLF] 1 (by decide) (by decide)

/-- C9: a line-feed read in the confirmation loop matches none of the
switch cases, so it takes the default re-prompt branch, not the decline
branch: a bare Enter (just "\n") never exits with status 255 — the loop
keeps re-prompting (and, the input now exhausted, runs forever). -/
theorem warnack_newline_reprompts :
    (∀ (rest : List Int) (fuel : Nat),
        ackLoop (fuel+1) (cLF :: rest) =
          ⟨prompt :: reprompt :: (ackLoop fuel rest).out,
            (ackLoop fuel rest).stdinRest, (ackLoop fuel rest).outcome⟩) ∧
    (∀ (file func : String) (line : Int) (msg : String) (fuel : Nat),
        (__output file func line OutputType.Warn_Ack msg [cLF] fuel).outcome =
          Outcome.running) := by
  constructor
  · intro rest fuel
    exact ackLoop_default_step cLF rest fuel (by decide) (by decide)
  · intro file func line msg fuel
    show (ackLoop fuel [cLF]).outcome = Outcome.running
    cases fuel with
    | zero => rfl
    | succ n =>
      rw [ackLoop_default_step cLF [] n (by decide) (by decide)]
      exact (ackLoop_nil_running n).1

/-- C10: with standard input exhausted, every `getc` in the confirmation
loop yields `EOF`, which matches none of the accept or decline cases, so
each iteration takes the default re-prompt branch and the loop never
finishes: for every iteration bound the call has neither returned nor
exited nor aborted. -/
theorem warnack_eof_loops_forever (file func : String) (line : Int) (msg : String)
    (fuel : Nat) :
    (__output file func line OutputType.Warn_Ack msg [] fuel).outcome =
      Outcome.running ∧
    (__output file func line OutputType.Warn_Ack msg [] fuel).stdinRest = [] ∧
    ackLoop (fuel+1) [] =
      ⟨prompt :: reprompt :: (ackLoop fuel []).out,
        (ackLoop fuel []).stdinRest, (ackLoop fuel []).outcome⟩ := by
  refine ⟨?_, ?_, ackLoop_nil_step fuel⟩
  · show (ackLoop fuel []).outcome = Outcome.running
    exact (ackLoop_nil_running fuel).1
  · show (ackLoop fuel []).stdinRest = []
    exact (ackLoop_nil_running fuel).2

end libutil
